import Mathlib

/-!
Shallow embedding of `ivy/data_classes/array/experimental/activations.py`:
the class `_ArrayWithActivationsExperimental`, a delegation facade whose
eleven instance methods (`logit`, `thresholded_relu`, `prelu`, `relu6`,
`logsigmoid`, `selu`, `silu`, `elu`, `hardtanh`, `tanhshrink`, `celu`) each
forward their arguments to the same-named backend function `ivy.N`.

The embedding is parametric in the type `Data` of backend-native raw buffers.
An array handle wraps one raw buffer (its `_data` attribute).  Argument
values are Python values (`None`, ints, floats, strings, handles, raw
buffers).  A backend invocation is recorded as a `BackendCall`: the function
name, the positional argument list (first element is the primary operand)
and the keyword-argument list, both in source order.  The backend itself is
an arbitrary function from calls to `Except Err Res`, so a raised exception
is the `Except.error` branch.

Python call-site semantics (positional-only `/`, keyword-only `*`, default
values) are embedded by `bindParams`, which binds a list of caller-supplied
positional arguments and keyword arguments against a method's declared
signature exactly as CPython does for a bound method (the receiver is
already bound), returning `none` where CPython raises `TypeError` before
the method body runs.
-/

namespace IvyActivations

/-- An ivy array handle: an opaque wrapper holding a backend-native raw
buffer in its `_data` attribute. -/
structure IvyArray (Data : Type) where
  _data : Data
  deriving DecidableEq

/-- A Python value as it can appear among the facade's arguments: `None`,
an int literal, a float literal (modelled as a rational), a string, an
array handle (a wrapper object such as `self` or `out`), or a raw
backend-native buffer (such as `self._data`). -/
inductive KwVal (Data : Type) where
  | pynone : KwVal Data
  | pyint (n : Int) : KwVal Data
  | pyfloat (q : Rat) : KwVal Data
  | pystr (s : String) : KwVal Data
  | handle (a : IvyArray Data) : KwVal Data
  | raw (d : Data) : KwVal Data
  deriving DecidableEq

/-- One invocation of a backend function `ivy.N`: the function name `N`,
the positional arguments in order (the first is the primary operand), and
the keyword arguments in the order they appear at the call site. -/
structure BackendCall (Data : Type) where
  fname : String
  args : List (KwVal Data)
  kwargs : List (String × KwVal Data)
  deriving DecidableEq

/-- A backend: any interpretation of backend calls.  A normal return is
`Except.ok`, a raised exception is `Except.error`. -/
def Backend (Data Err Res : Type) : Type :=
  BackendCall Data → Except Err Res

/-- The observable outcome of executing one facade method: the receiver as
it stands after the call (state-passing translation of `self`), the list of
backend invocations the body performed, in order, and the method's returned
value or raised exception. -/
structure MethodResult (Data Err Res : Type) where
  receiver : IvyArray Data
  trace : List (BackendCall Data)
  ret : Except Err Res

/-- The kind of a declared parameter in a Python signature: positional-only
(before `/`), positional-or-keyword, or keyword-only (after `*`). -/
inductive ParamKind where
  | posOnly : ParamKind
  | posOrKw : ParamKind
  | kwOnly : ParamKind
  deriving DecidableEq

/-- One declared parameter of a method signature: its name, its kind, and
its default value when it has one. -/
structure Param (Data : Type) where
  name : String
  kind : ParamKind
  dflt : Option (KwVal Data)
  deriving DecidableEq

/-- CPython-style binding of a bound-method call against a declared
signature (the receiver is already bound and is not listed).  Returns the
bound environment in declaration order, or `none` exactly where CPython
raises `TypeError` before the body runs: too many positional arguments, a
keyword repeating a positionally-filled parameter, a positional-only
parameter passed by keyword, an unknown keyword, or a missing required
parameter. -/
def bindParams {Data : Type} :
    List (Param Data) → List (KwVal Data) → List (String × KwVal Data) →
    Option (List (String × KwVal Data))
  | [], [], [] => some []
  | [], _ :: _, _ => none
  | [], [], _ :: _ => none
  | p :: ps, a :: rest, kwargs =>
    if p.kind = ParamKind.kwOnly then none
    else if (kwargs.find? (fun q => q.1 = p.name)).isSome then none
    else (bindParams ps rest kwargs).map (fun env => (p.name, a) :: env)
  | p :: ps, [], kwargs =>
    match kwargs.find? (fun q => q.1 = p.name) with
    | some q =>
      if p.kind = ParamKind.posOnly then none
      else
        (bindParams ps [] (kwargs.filter (fun r => ¬ r.1 = p.name))).map
          (fun env => (p.name, q.2) :: env)
    | none =>
      match p.dflt with
      | some d => (bindParams ps [] kwargs).map (fun env => (p.name, d) :: env)
      | none => none

/-- Read a bound parameter from a binding environment (total, with an
arbitrary fallback that well-formed bindings never reach). -/
def lookupArg {Data : Type} (env : List (String × KwVal Data)) (n : String) :
    KwVal Data :=
  match env.find? (fun q => q.1 = n) with
  | some q => q.2
  | none => KwVal.pynone

/-! ### The eleven method bodies

Each `N` below is the backend call built by the single `return ivy.N(...)`
statement of the source method `N`, as a function of the receiver and the
method's declared parameters.  `logit` passes the wrapper `self` itself as
the primary operand; every other method passes the raw buffer
`self._data`.  `prelu` additionally passes `slope` positionally. -/

/-- Source lines 10-54: `return ivy.logit(self, eps=eps,
complex_mode=complex_mode, out=out)`. -/
def logit {Data : Type} (self : IvyArray Data) (eps complex_mode out : KwVal Data) :
    BackendCall Data :=
  ⟨"logit", [KwVal.handle self],
    [("eps", eps), ("complex_mode", complex_mode), ("out", out)]⟩

/-- Source lines 56-91: `return ivy.thresholded_relu(self._data,
threshold=threshold, out=out)`. -/
def thresholded_relu {Data : Type} (self : IvyArray Data) (threshold out : KwVal Data) :
    BackendCall Data :=
  ⟨"thresholded_relu", [KwVal.raw self._data],
    [("threshold", threshold), ("out", out)]⟩

/-- Source lines 93-124: `return ivy.prelu(self._data, slope, out=out)`. -/
def prelu {Data : Type} (self : IvyArray Data) (slope out : KwVal Data) :
    BackendCall Data :=
  ⟨"prelu", [KwVal.raw self._data, slope], [("out", out)]⟩

/-- Source lines 125-168: `return ivy.relu6(self._data,
complex_mode=complex_mode, out=out)`. -/
def relu6 {Data : Type} (self : IvyArray Data) (complex_mode out : KwVal Data) :
    BackendCall Data :=
  ⟨"relu6", [KwVal.raw self._data],
    [("complex_mode", complex_mode), ("out", out)]⟩

/-- Source lines 170-203: `return ivy.logsigmoid(self._data,
complex_mode=complex_mode)` — no `out` parameter in this method. -/
def logsigmoid {Data : Type} (self : IvyArray Data) (complex_mode : KwVal Data) :
    BackendCall Data :=
  ⟨"logsigmoid", [KwVal.raw self._data], [("complex_mode", complex_mode)]⟩

/-- Source lines 205-240: `return ivy.selu(self._data, out=out)`. -/
def selu {Data : Type} (self : IvyArray Data) (out : KwVal Data) :
    BackendCall Data :=
  ⟨"selu", [KwVal.raw self._data], [("out", out)]⟩

/-- Source lines 242-263: `return ivy.silu(self._data, out=out)`. -/
def silu {Data : Type} (self : IvyArray Data) (out : KwVal Data) :
    BackendCall Data :=
  ⟨"silu", [KwVal.raw self._data], [("out", out)]⟩

/-- Source lines 265-299: `return ivy.elu(self._data, alpha=alpha,
out=out)`. -/
def elu {Data : Type} (self : IvyArray Data) (alpha out : KwVal Data) :
    BackendCall Data :=
  ⟨"elu", [KwVal.raw self._data], [("alpha", alpha), ("out", out)]⟩

/-- Source lines 301-339: `return ivy.hardtanh(self._data, min_val=min_val,
max_val=max_val, out=out)` — note the call site orders `min_val` before
`max_val`, the reverse of the declaration order. -/
def hardtanh {Data : Type} (self : IvyArray Data) (max_val min_val out : KwVal Data) :
    BackendCall Data :=
  ⟨"hardtanh", [KwVal.raw self._data],
    [("min_val", min_val), ("max_val", max_val), ("out", out)]⟩

/-- Source lines 341-362: `return ivy.tanhshrink(self._data, out=out)`. -/
def tanhshrink {Data : Type} (self : IvyArray Data) (out : KwVal Data) :
    BackendCall Data :=
  ⟨"tanhshrink", [KwVal.raw self._data], [("out", out)]⟩

/-- Source lines 364-402: `return ivy.celu(self._data, alpha=alpha,
complex_mode=complex_mode, out=out)`. -/
def celu {Data : Type} (self : IvyArray Data) (alpha complex_mode out : KwVal Data) :
    BackendCall Data :=
  ⟨"celu", [KwVal.raw self._data],
    [("alpha", alpha), ("complex_mode", complex_mode), ("out", out)]⟩

/-! ### The eleven declared signatures

Each `N_sig` lists the declared parameters of method `N` after the bound
receiver, in declaration order, with the source's parameter kinds and
default values.  Int literals (`0`, `1`, `-1`) and float literals (`1.0`)
are kept distinct, as in Python. -/

/-- `def logit(self, /, *, eps=None, complex_mode="jax", out=None)`. -/
def logit_sig {Data : Type} : List (Param Data) :=
  [⟨"eps", ParamKind.kwOnly, some KwVal.pynone⟩,
   ⟨"complex_mode", ParamKind.kwOnly, some (KwVal.pystr "jax")⟩,
   ⟨"out", ParamKind.kwOnly, some KwVal.pynone⟩]

/-- `def thresholded_relu(self, /, *, threshold=0, out=None)`. -/
def thresholded_relu_sig {Data : Type} : List (Param Data) :=
  [⟨"threshold", ParamKind.kwOnly, some (KwVal.pyint 0)⟩,
   ⟨"out", ParamKind.kwOnly, some KwVal.pynone⟩]

/-- `def prelu(self, slope, /, *, out=None)`: `slope` is positional-only
with no default. -/
def prelu_sig {Data : Type} : List (Param Data) :=
  [⟨"slope", ParamKind.posOnly, Option.none⟩,
   ⟨"out", ParamKind.kwOnly, some KwVal.pynone⟩]

/-- `def relu6(self, /, *, complex_mode="jax", out=None)`. -/
def relu6_sig {Data : Type} : List (Param Data) :=
  [⟨"complex_mode", ParamKind.kwOnly, some (KwVal.pystr "jax")⟩,
   ⟨"out", ParamKind.kwOnly, some KwVal.pynone⟩]

/-- `def logsigmoid(self, complex_mode="jax")`: no `/` and no `*`, so
`complex_mode` is positional-or-keyword; there is no `out` parameter. -/
def logsigmoid_sig {Data : Type} : List (Param Data) :=
  [⟨"complex_mode", ParamKind.posOrKw, some (KwVal.pystr "jax")⟩]

/-- `def selu(self, /, *, out=None)`. -/
def selu_sig {Data : Type} : List (Param Data) :=
  [⟨"out", ParamKind.kwOnly, some KwVal.pynone⟩]

/-- `def silu(self, /, *, out=None)`. -/
def silu_sig {Data : Type} : List (Param Data) :=
  [⟨"out", ParamKind.kwOnly, some KwVal.pynone⟩]

/-- `def elu(self, /, *, alpha=1.0, out=None)`. -/
def elu_sig {Data : Type} : List (Param Data) :=
  [⟨"alpha", ParamKind.kwOnly, some (KwVal.pyfloat 1)⟩,
   ⟨"out", ParamKind.kwOnly, some KwVal.pynone⟩]

/-- `def hardtanh(self, /, *, max_val=1, min_val=-1, out=None)`. -/
def hardtanh_sig {Data : Type} : List (Param Data) :=
  [⟨"max_val", ParamKind.kwOnly, some (KwVal.pyint 1)⟩,
   ⟨"min_val", ParamKind.kwOnly, some (KwVal.pyint (-1))⟩,
   ⟨"out", ParamKind.kwOnly, some KwVal.pynone⟩]

/-- `def tanhshrink(self, /, *, out=None)`. -/
def tanhshrink_sig {Data : Type} : List (Param Data) :=
  [⟨"out", ParamKind.kwOnly, some KwVal.pynone⟩]

/-- `def celu(self, /, *, alpha=1.0, complex_mode="jax", out=None)`. -/
def celu_sig {Data : Type} : List (Param Data) :=
  [⟨"alpha", ParamKind.kwOnly, some (KwVal.pyfloat 1)⟩,
   ⟨"complex_mode", ParamKind.kwOnly, some (KwVal.pystr "jax")⟩,
   ⟨"out", ParamKind.kwOnly, some KwVal.pynone⟩]

/-! ### Call-site semantics

`N_invoke self posArgs kwargs` is the behaviour of the Python call
`handle.N(*posArgs, **kwargs)`: bind the supplied arguments against `N`'s
declared signature, and on success build the backend call the body
performs; `none` means the call is rejected by the signature before any
backend call occurs. -/

/-- `handle.logit(*posArgs, **kwargs)` up to the backend call. -/
def logit_invoke {Data : Type} (self : IvyArray Data) (posArgs : List (KwVal Data))
    (kwargs : List (String × KwVal Data)) : Option (BackendCall Data) :=
  (bindParams logit_sig posArgs kwargs).map (fun env =>
    logit self (lookupArg env "eps") (lookupArg env "complex_mode")
      (lookupArg env "out"))

/-- `handle.thresholded_relu(*posArgs, **kwargs)` up to the backend call. -/
def thresholded_relu_invoke {Data : Type} (self : IvyArray Data)
    (posArgs : List (KwVal Data)) (kwargs : List (String × KwVal Data)) :
    Option (BackendCall Data) :=
  (bindParams thresholded_relu_sig posArgs kwargs).map (fun env =>
    thresholded_relu self (lookupArg env "threshold") (lookupArg env "out"))

/-- `handle.prelu(*posArgs, **kwargs)` up to the backend call. -/
def prelu_invoke {Data : Type} (self : IvyArray Data) (posArgs : List (KwVal Data))
    (kwargs : List (String × KwVal Data)) : Option (BackendCall Data) :=
  (bindParams prelu_sig posArgs kwargs).map (fun env =>
    prelu self (lookupArg env "slope") (lookupArg env "out"))

/-- `handle.relu6(*posArgs, **kwargs)` up to the backend call. -/
def relu6_invoke {Data : Type} (self : IvyArray Data) (posArgs : List (KwVal Data))
    (kwargs : List (String × KwVal Data)) : Option (BackendCall Data) :=
  (bindParams relu6_sig posArgs kwargs).map (fun env =>
    relu6 self (lookupArg env "complex_mode") (lookupArg env "out"))

/-- `handle.logsigmoid(*posArgs, **kwargs)` up to the backend call. -/
def logsigmoid_invoke {Data : Type} (self : IvyArray Data)
    (posArgs : List (KwVal Data)) (kwargs : List (String × KwVal Data)) :
    Option (BackendCall Data) :=
  (bindParams logsigmoid_sig posArgs kwargs).map (fun env =>
    logsigmoid self (lookupArg env "complex_mode"))

/-- `handle.selu(*posArgs, **kwargs)` up to the backend call. -/
def selu_invoke {Data : Type} (self : IvyArray Data) (posArgs : List (KwVal Data))
    (kwargs : List (String × KwVal Data)) : Option (BackendCall Data) :=
  (bindParams selu_sig posArgs kwargs).map (fun env =>
    selu self (lookupArg env "out"))

/-- `handle.silu(*posArgs, **kwargs)` up to the backend call. -/
def silu_invoke {Data : Type} (self : IvyArray Data) (posArgs : List (KwVal Data))
    (kwargs : List (String × KwVal Data)) : Option (BackendCall Data) :=
  (bindParams silu_sig posArgs kwargs).map (fun env =>
    silu self (lookupArg env "out"))

/-- `handle.elu(*posArgs, **kwargs)` up to the backend call. -/
def elu_invoke {Data : Type} (self : IvyArray Data) (posArgs : List (KwVal Data))
    (kwargs : List (String × KwVal Data)) : Option (BackendCall Data) :=
  (bindParams elu_sig posArgs kwargs).map (fun env =>
    elu self (lookupArg env "alpha") (lookupArg env "out"))

/-- `handle.hardtanh(*posArgs, **kwargs)` up to the backend call. -/
def hardtanh_invoke {Data : Type} (self : IvyArray Data) (posArgs : List (KwVal Data))
    (kwargs : List (String × KwVal Data)) : Option (BackendCall Data) :=
  (bindParams hardtanh_sig posArgs kwargs).map (fun env =>
    hardtanh self (lookupArg env "max_val") (lookupArg env "min_val")
      (lookupArg env "out"))

/-- `handle.tanhshrink(*posArgs, **kwargs)` up to the backend call. -/
def tanhshrink_invoke {Data : Type} (self : IvyArray Data)
    (posArgs : List (KwVal Data)) (kwargs : List (String × KwVal Data)) :
    Option (BackendCall Data) :=
  (bindParams tanhshrink_sig posArgs kwargs).map (fun env =>
    tanhshrink self (lookupArg env "out"))

/-- `handle.celu(*posArgs, **kwargs)` up to the backend call. -/
def celu_invoke {Data : Type} (self : IvyArray Data) (posArgs : List (KwVal Data))
    (kwargs : List (String × KwVal Data)) : Option (BackendCall Data) :=
  (bindParams celu_sig posArgs kwargs).map (fun env =>
    celu self (lookupArg env "alpha") (lookupArg env "complex_mode")
      (lookupArg env "out"))

/-! ### Instrumented execution of the method bodies

`N_exec backend self params` is the state-passing, trace-instrumented
translation of the body of method `N` once its parameters are bound.  Each
body is the single statement `return ivy.N(...)` and contains no assignment
to any attribute of `self` and no other statement, so its translation
returns the receiver unchanged, emits exactly the one backend call the
`return` statement performs, and returns the backend's value (or
exception) as the method's own outcome. -/

/-- Execution of the body of `logit` (line 54). -/
def logit_exec {Data Err Res : Type} (backend : Backend Data Err Res)
    (self : IvyArray Data) (eps complex_mode out : KwVal Data) :
    MethodResult Data Err Res :=
  ⟨self, [logit self eps complex_mode out],
    backend (logit self eps complex_mode out)⟩

/-- Execution of the body of `thresholded_relu` (line 91). -/
def thresholded_relu_exec {Data Err Res : Type} (backend : Backend Data Err Res)
    (self : IvyArray Data) (threshold out : KwVal Data) :
    MethodResult Data Err Res :=
  ⟨self, [thresholded_relu self threshold out],
    backend (thresholded_relu self threshold out)⟩

/-- Execution of the body of `prelu` (line 124). -/
def prelu_exec {Data Err Res : Type} (backend : Backend Data Err Res)
    (self : IvyArray Data) (slope out : KwVal Data) :
    MethodResult Data Err Res :=
  ⟨self, [prelu self slope out], backend (prelu self slope out)⟩

/-- Execution of the body of `relu6` (line 168). -/
def relu6_exec {Data Err Res : Type} (backend : Backend Data Err Res)
    (self : IvyArray Data) (complex_mode out : KwVal Data) :
    MethodResult Data Err Res :=
  ⟨self, [relu6 self complex_mode out], backend (relu6 self complex_mode out)⟩

/-- Execution of the body of `logsigmoid` (line 203). -/
def logsigmoid_exec {Data Err Res : Type} (backend : Backend Data Err Res)
    (self : IvyArray Data) (complex_mode : KwVal Data) :
    MethodResult Data Err Res :=
  ⟨self, [logsigmoid self complex_mode], backend (logsigmoid self complex_mode)⟩

/-- Execution of the body of `selu` (line 240). -/
def selu_exec {Data Err Res : Type} (backend : Backend Data Err Res)
    (self : IvyArray Data) (out : KwVal Data) : MethodResult Data Err Res :=
  ⟨self, [selu self out], backend (selu self out)⟩

/-- Execution of the body of `silu` (line 263). -/
def silu_exec {Data Err Res : Type} (backend : Backend Data Err Res)
    (self : IvyArray Data) (out : KwVal Data) : MethodResult Data Err Res :=
  ⟨self, [silu self out], backend (silu self out)⟩

/-- Execution of the body of `elu` (line 299). -/
def elu_exec {Data Err Res : Type} (backend : Backend Data Err Res)
    (self : IvyArray Data) (alpha out : KwVal Data) : MethodResult Data Err Res :=
  ⟨self, [elu self alpha out], backend (elu self alpha out)⟩

/-- Execution of the body of `hardtanh` (line 339). -/
def hardtanh_exec {Data Err Res : Type} (backend : Backend Data Err Res)
    (self : IvyArray Data) (max_val min_val out : KwVal Data) :
    MethodResult Data Err Res :=
  ⟨self, [hardtanh self max_val min_val out],
    backend (hardtanh self max_val min_val out)⟩

/-- Execution of the body of `tanhshrink` (line 362). -/
def tanhshrink_exec {Data Err Res : Type} (backend : Backend Data Err Res)
    (self : IvyArray Data) (out : KwVal Data) : MethodResult Data Err Res :=
  ⟨self, [tanhshrink self out], backend (tanhshrink self out)⟩

/-- Execution of the body of `celu` (line 402). -/
def celu_exec {Data Err Res : Type} (backend : Backend Data Err Res)
    (self : IvyArray Data) (alpha complex_mode out : KwVal Data) :
    MethodResult Data Err Res :=
  ⟨self, [celu self alpha complex_mode out],
    backend (celu self alpha complex_mode out)⟩

/-! ### Claim theorems -/

/-- Claim C1: for every activation name N among logit, thresholded_relu,
prelu, relu6, logsigmoid, selu, silu, elu, hardtanh, tanhshrink and celu,
executing the instance method N invokes the same-named backend function
exactly once (the trace is the one-element list of the recorded call),
passing the receiver's raw data (or the receiver itself, for `logit`) as
the first positional operand followed by the method's declared keyword
parameters unchanged, and returns exactly the backend's value, performing
no other computation. -/
theorem claim_C1_delegation {Data Err Res : Type} (backend : Backend Data Err Res)
    (self : IvyArray Data)
    (eps complex_mode out threshold slope alpha max_val min_val : KwVal Data) :
    ((logit_exec backend self eps complex_mode out).trace =
      [⟨"logit", [KwVal.handle self],
        [("eps", eps), ("complex_mode", complex_mode), ("out", out)]⟩] ∧
     (logit_exec backend self eps complex_mode out).ret =
      backend (logit self eps complex_mode out)) ∧
    ((thresholded_relu_exec backend self threshold out).trace =
      [⟨"thresholded_relu", [KwVal.raw self._data],
        [("threshold", threshold), ("out", out)]⟩] ∧
     (thresholded_relu_exec backend self threshold out).ret =
      backend (thresholded_relu self threshold out)) ∧
    ((prelu_exec backend self slope out).trace =
      [⟨"prelu", [KwVal.raw self._data, slope], [("out", out)]⟩] ∧
     (prelu_exec backend self slope out).ret = backend (prelu self slope out)) ∧
    ((relu6_exec backend self complex_mode out).trace =
      [⟨"relu6", [KwVal.raw self._data],
        [("complex_mode", complex_mode), ("out", out)]⟩] ∧
     (relu6_exec backend self complex_mode out).ret =
      backend (relu6 self complex_mode out)) ∧
    ((logsigmoid_exec backend self complex_mode).trace =
      [⟨"logsigmoid", [KwVal.raw self._data],
        [("complex_mode", complex_mode)]⟩] ∧
     (logsigmoid_exec backend self complex_mode).ret =
      backend (logsigmoid self complex_mode)) ∧
    ((selu_exec backend self out).trace =
      [⟨"selu", [KwVal.raw self._data], [("out", out)]⟩] ∧
     (selu_exec backend self out).ret = backend (selu self out)) ∧
    ((silu_exec backend self out).trace =
      [⟨"silu", [KwVal.raw self._data], [("out", out)]⟩] ∧
     (silu_exec backend self out).ret = backend (silu self out)) ∧
    ((elu_exec backend self alpha out).trace =
      [⟨"elu", [KwVal.raw self._data], [("alpha", alpha), ("out", out)]⟩] ∧
     (elu_exec backend self alpha out).ret = backend (elu self alpha out)) ∧
    ((hardtanh_exec backend self max_val min_val out).trace =
      [⟨"hardtanh", [KwVal.raw self._data],
        [("min_val", min_val), ("max_val", max_val), ("out", out)]⟩] ∧
     (hardtanh_exec backend self max_val min_val out).ret =
      backend (hardtanh self max_val min_val out)) ∧
    ((tanhshrink_exec backend self out).trace =
      [⟨"tanhshrink", [KwVal.raw self._data], [("out", out)]⟩] ∧
     (tanhshrink_exec backend self out).ret = backend (tanhshrink self out)) ∧
    ((celu_exec backend self alpha complex_mode out).trace =
      [⟨"celu", [KwVal.raw self._data],
        [("alpha", alpha), ("complex_mode", complex_mode), ("out", out)]⟩] ∧
     (celu_exec backend self alpha complex_mode out).ret =
      backend (celu self alpha complex_mode out)) :=
  ⟨⟨rfl, rfl⟩, ⟨rfl, rfl⟩, ⟨rfl, rfl⟩, ⟨rfl, rfl⟩, ⟨rfl, rfl⟩, ⟨rfl, rfl⟩,
   ⟨rfl, rfl⟩, ⟨rfl, rfl⟩, ⟨rfl, rfl⟩, ⟨rfl, rfl⟩, ⟨rfl, rfl⟩⟩

/-- Claim C7: every method call is stateless and leaves the receiver
unchanged — the state-passing execution of each of the eleven bodies
returns the receiver exactly as it was, and its only effect is the single
backend invocation (trace length one) whose value it returns. -/
theorem claim_C7_stateless {Data Err Res : Type} (backend : Backend Data Err Res)
    (self : IvyArray Data)
    (eps complex_mode out threshold slope alpha max_val min_val : KwVal Data) :
    ((logit_exec backend self eps complex_mode out).receiver = self ∧
      (logit_exec backend self eps complex_mode out).trace.length = 1) ∧
    ((thresholded_relu_exec backend self threshold out).receiver = self ∧
      (thresholded_relu_exec backend self threshold out).trace.length = 1) ∧
    ((prelu_exec backend self slope out).receiver = self ∧
      (prelu_exec backend self slope out).trace.length = 1) ∧
    ((relu6_exec backend self complex_mode out).receiver = self ∧
      (relu6_exec backend self complex_mode out).trace.length = 1) ∧
    ((logsigmoid_exec backend self complex_mode).receiver = self ∧
      (logsigmoid_exec backend self complex_mode).trace.length = 1) ∧
    ((selu_exec backend self out).receiver = self ∧
      (selu_exec backend self out).trace.length = 1) ∧
    ((silu_exec backend self out).receiver = self ∧
      (silu_exec backend self out).trace.length = 1) ∧
    ((elu_exec backend self alpha out).receiver = self ∧
      (elu_exec backend self alpha out).trace.length = 1) ∧
    ((hardtanh_exec backend self max_val min_val out).receiver = self ∧
      (hardtanh_exec backend self max_val min_val out).trace.length = 1) ∧
    ((tanhshrink_exec backend self out).receiver = self ∧
      (tanhshrink_exec backend self out).trace.length = 1) ∧
    ((celu_exec backend self alpha complex_mode out).receiver = self ∧
      (celu_exec backend self alpha complex_mode out).trace.length = 1) :=
  ⟨⟨rfl, rfl⟩, ⟨rfl, rfl⟩, ⟨rfl, rfl⟩, ⟨rfl, rfl⟩, ⟨rfl, rfl⟩, ⟨rfl, rfl⟩,
   ⟨rfl, rfl⟩, ⟨rfl, rfl⟩, ⟨rfl, rfl⟩, ⟨rfl, rfl⟩, ⟨rfl, rfl⟩⟩

/-- Claim C8: `logit` is the only method whose backend call takes the
wrapper object `self` as first operand; each of the other ten methods
passes the receiver's unwrapped raw buffer `self._data` first. -/
theorem claim_C8_operand {Data : Type} (self : IvyArray Data)
    (eps complex_mode out threshold slope alpha max_val min_val : KwVal Data) :
    (logit self eps complex_mode out).args.head? = some (KwVal.handle self) ∧
    (thresholded_relu self threshold out).args.head? =
      some (KwVal.raw self._data) ∧
    (prelu self slope out).args.head? = some (KwVal.raw self._data) ∧
    (relu6 self complex_mode out).args.head? = some (KwVal.raw self._data) ∧
    (logsigmoid self complex_mode).args.head? = some (KwVal.raw self._data) ∧
    (selu self out).args.head? = some (KwVal.raw self._data) ∧
    (silu self out).args.head? = some (KwVal.raw self._data) ∧
    (elu self alpha out).args.head? = some (KwVal.raw self._data) ∧
    (hardtanh self max_val min_val out).args.head? =
      some (KwVal.raw self._data) ∧
    (tanhshrink self out).args.head? = some (KwVal.raw self._data) ∧
    (celu self alpha complex_mode out).args.head? =
      some (KwVal.raw self._data) :=
  ⟨rfl, rfl, rfl, rfl, rfl, rfl, rfl, rfl, rfl, rfl, rfl⟩

/-- Claim C10: every method is deterministic relative to the backend — two
calls of the same method with equal receivers and equal argument values
build identical backend invocations, since no method reads any input other
than the receiver and its declared parameters. -/
theorem claim_C10_deterministic {Data : Type} (self1 self2 : IvyArray Data)
    (a1 a2 b1 b2 c1 c2 : KwVal Data)
    (hs : self1 = self2) (ha : a1 = a2) (hb : b1 = b2) (hc : c1 = c2) :
    logit self1 a1 b1 c1 = logit self2 a2 b2 c2 ∧
    thresholded_relu self1 a1 b1 = thresholded_relu self2 a2 b2 ∧
    prelu self1 a1 b1 = prelu self2 a2 b2 ∧
    relu6 self1 a1 b1 = relu6 self2 a2 b2 ∧
    logsigmoid self1 a1 = logsigmoid self2 a2 ∧
    selu self1 a1 = selu self2 a2 ∧
    silu self1 a1 = silu self2 a2 ∧
    elu self1 a1 b1 = elu self2 a2 b2 ∧
    hardtanh self1 a1 b1 c1 = hardtanh self2 a2 b2 c2 ∧
    tanhshrink self1 a1 = tanhshrink self2 a2 ∧
    celu self1 a1 b1 c1 = celu self2 a2 b2 c2 := by
  subst hs; subst ha; subst hb; subst hc
  exact ⟨rfl, rfl, rfl, rfl, rfl, rfl, rfl, rfl, rfl, rfl, rfl⟩

/-- Witness for C10 at a concrete input: `Data = Nat`, receiver wrapping
`0`, all argument values `None`. -/
theorem claim_C10_deterministic_witness :
    logit (⟨0⟩ : IvyArray Nat) KwVal.pynone KwVal.pynone KwVal.pynone =
      logit ⟨0⟩ KwVal.pynone KwVal.pynone KwVal.pynone ∧
    thresholded_relu (⟨0⟩ : IvyArray Nat) KwVal.pynone KwVal.pynone =
      thresholded_relu ⟨0⟩ KwVal.pynone KwVal.pynone ∧
    prelu (⟨0⟩ : IvyArray Nat) KwVal.pynone KwVal.pynone =
      prelu ⟨0⟩ KwVal.pynone KwVal.pynone ∧
    relu6 (⟨0⟩ : IvyArray Nat) KwVal.pynone KwVal.pynone =
      relu6 ⟨0⟩ KwVal.pynone KwVal.pynone ∧
    logsigmoid (⟨0⟩ : IvyArray Nat) KwVal.pynone =
      logsigmoid ⟨0⟩ KwVal.pynone ∧
    selu (⟨0⟩ : IvyArray Nat) KwVal.pynone = selu ⟨0⟩ KwVal.pynone ∧
    silu (⟨0⟩ : IvyArray Nat) KwVal.pynone = silu ⟨0⟩ KwVal.pynone ∧
    elu (⟨0⟩ : IvyArray Nat) KwVal.pynone KwVal.pynone =
      elu ⟨0⟩ KwVal.pynone KwVal.pynone ∧
    hardtanh (⟨0⟩ : IvyArray Nat) KwVal.pynone KwVal.pynone KwVal.pynone =
      hardtanh ⟨0⟩ KwVal.pynone KwVal.pynone KwVal.pynone ∧
    tanhshrink (⟨0⟩ : IvyArray Nat) KwVal.pynone =
      tanhshrink ⟨0⟩ KwVal.pynone ∧
    celu (⟨0⟩ : IvyArray Nat) KwVal.pynone KwVal.pynone KwVal.pynone =
      celu ⟨0⟩ KwVal.pynone KwVal.pynone KwVal.pynone :=
  claim_C10_deterministic ⟨0⟩ ⟨0⟩ KwVal.pynone KwVal.pynone KwVal.pynone
    KwVal.pynone KwVal.pynone KwVal.pynone rfl rfl rfl rfl

/-- Claim C2, counterexample: on the concrete handle wrapping raw buffer
`0` (`Data = Nat`), calling `logit` with no arguments records a call whose
first positional operand is the wrapper handle itself, not the raw data
`0` — so the claim "invokes the backend function logit with that raw data
as first operand" is false as stated. -/
theorem claim_C2_counterexample :
    (logit_invoke (⟨0⟩ : IvyArray Nat) [] []).map BackendCall.args =
      some [KwVal.handle ⟨0⟩] ∧
    decide ((logit_invoke (⟨0⟩ : IvyArray Nat) [] []).map BackendCall.args =
      some [KwVal.raw 0]) = false :=
  ⟨by decide, by decide⟩

/-- Claim C2 as amended: calling `logit` with no arguments on a handle
invokes the backend function `logit` with the wrapper handle itself (not
its raw data) as first operand together with the defaults `eps=None`,
`complex_mode="jax"`, `out=None`, and returns the backend's value
unchanged. -/
theorem claim_C2_logit_no_args {Data Err Res : Type}
    (backend : Backend Data Err Res) (self : IvyArray Data) :
    logit_invoke self [] [] =
      some ⟨"logit", [KwVal.handle self],
        [("eps", KwVal.pynone), ("complex_mode", KwVal.pystr "jax"),
         ("out", KwVal.pynone)]⟩ ∧
    (logit_exec backend self KwVal.pynone (KwVal.pystr "jax") KwVal.pynone).ret =
      backend (logit self KwVal.pynone (KwVal.pystr "jax") KwVal.pynone) :=
  ⟨rfl, rfl⟩

/-- Claim C3: omitting an optional parameter makes the backend call
receive exactly the documented default — `elu` forwards `alpha=1.0`,
`hardtanh` forwards `max_val=1` and `min_val=-1`, `thresholded_relu`
forwards `threshold=0`, `celu` forwards `alpha=1.0` and
`complex_mode="jax"`, and every omitted `out` is forwarded as `None`
(shown here for all eleven methods; `prelu`'s required `slope` is supplied
positionally). -/
theorem claim_C3_default_values {Data : Type} (self : IvyArray Data)
    (slope : KwVal Data) :
    elu_invoke self [] [] =
      some ⟨"elu", [KwVal.raw self._data],
        [("alpha", KwVal.pyfloat 1), ("out", KwVal.pynone)]⟩ ∧
    hardtanh_invoke self [] [] =
      some ⟨"hardtanh", [KwVal.raw self._data],
        [("min_val", KwVal.pyint (-1)), ("max_val", KwVal.pyint 1),
         ("out", KwVal.pynone)]⟩ ∧
    thresholded_relu_invoke self [] [] =
      some ⟨"thresholded_relu", [KwVal.raw self._data],
        [("threshold", KwVal.pyint 0), ("out", KwVal.pynone)]⟩ ∧
    celu_invoke self [] [] =
      some ⟨"celu", [KwVal.raw self._data],
        [("alpha", KwVal.pyfloat 1), ("complex_mode", KwVal.pystr "jax"),
         ("out", KwVal.pynone)]⟩ ∧
    logit_invoke self [] [] =
      some ⟨"logit", [KwVal.handle self],
        [("eps", KwVal.pynone), ("complex_mode", KwVal.pystr "jax"),
         ("out", KwVal.pynone)]⟩ ∧
    relu6_invoke self [] [] =
      some ⟨"relu6", [KwVal.raw self._data],
        [("complex_mode", KwVal.pystr "jax"), ("out", KwVal.pynone)]⟩ ∧
    logsigmoid_invoke self [] [] =
      some ⟨"logsigmoid", [KwVal.raw self._data],
        [("complex_mode", KwVal.pystr "jax")]⟩ ∧
    selu_invoke self [] [] =
      some ⟨"selu", [KwVal.raw self._data], [("out", KwVal.pynone)]⟩ ∧
    silu_invoke self [] [] =
      some ⟨"silu", [KwVal.raw self._data], [("out", KwVal.pynone)]⟩ ∧
    tanhshrink_invoke self [] [] =
      some ⟨"tanhshrink", [KwVal.raw self._data], [("out", KwVal.pynone)]⟩ ∧
    prelu_invoke self [slope] [] =
      some ⟨"prelu", [KwVal.raw self._data, slope], [("out", KwVal.pynone)]⟩ :=
  ⟨rfl, rfl, rfl, rfl, rfl, rfl, rfl, rfl, rfl, rfl, rfl⟩

/-- Claim C4: every method except `logsigmoid` declares an optional `out`
output-buffer parameter, `logsigmoid` declares none; and every method
accepting `out` forwards a caller-provided `out` handle unchanged as the
`out` keyword argument of its backend call, while `logsigmoid`'s backend
call carries no `out` keyword at all. -/
theorem claim_C4_out_parameter {Data : Type} (self : IvyArray Data)
    (eps complex_mode out threshold slope alpha max_val min_val : KwVal Data) :
    ("out" ∈ (logit_sig : List (Param Data)).map Param.name ∧
     "out" ∈ (thresholded_relu_sig : List (Param Data)).map Param.name ∧
     "out" ∈ (prelu_sig : List (Param Data)).map Param.name ∧
     "out" ∈ (relu6_sig : List (Param Data)).map Param.name ∧
     "out" ∈ (selu_sig : List (Param Data)).map Param.name ∧
     "out" ∈ (silu_sig : List (Param Data)).map Param.name ∧
     "out" ∈ (elu_sig : List (Param Data)).map Param.name ∧
     "out" ∈ (hardtanh_sig : List (Param Data)).map Param.name ∧
     "out" ∈ (tanhshrink_sig : List (Param Data)).map Param.name ∧
     "out" ∈ (celu_sig : List (Param Data)).map Param.name) ∧
    (logsigmoid_sig : List (Param Data)).map Param.name = ["complex_mode"] ∧
    (logsigmoid self complex_mode).kwargs.map Prod.fst = ["complex_mode"] ∧
    (("out", out) ∈ (logit self eps complex_mode out).kwargs ∧
     ("out", out) ∈ (thresholded_relu self threshold out).kwargs ∧
     ("out", out) ∈ (prelu self slope out).kwargs ∧
     ("out", out) ∈ (relu6 self complex_mode out).kwargs ∧
     ("out", out) ∈ (selu self out).kwargs ∧
     ("out", out) ∈ (silu self out).kwargs ∧
     ("out", out) ∈ (elu self alpha out).kwargs ∧
     ("out", out) ∈ (hardtanh self max_val min_val out).kwargs ∧
     ("out", out) ∈ (tanhshrink self out).kwargs ∧
     ("out", out) ∈ (celu self alpha complex_mode out).kwargs) := by
  refine ⟨⟨?_, ?_, ?_, ?_, ?_, ?_, ?_, ?_, ?_, ?_⟩, ?_, ?_,
    ⟨?_, ?_, ?_, ?_, ?_, ?_, ?_, ?_, ?_, ?_⟩⟩ <;>
    simp [logit_sig, thresholded_relu_sig, prelu_sig, relu6_sig,
      logsigmoid_sig, selu_sig, silu_sig, elu_sig, hardtanh_sig,
      tanhshrink_sig, celu_sig, logit, thresholded_relu, prelu, relu6,
      logsigmoid, selu, silu, elu, hardtanh, tanhshrink, celu]

/-- Binding helper: a signature headed by a required positional-only
parameter rejects every call that supplies no positional arguments,
whatever keyword arguments are supplied (a keyword of the same name is a
positional-only-passed-as-keyword error; its absence is a
missing-required-argument error). -/
theorem bindParams_missing_required {Data : Type} (nm : String)
    (ps : List (Param Data)) (kwargs : List (String × KwVal Data)) :
    bindParams (⟨nm, ParamKind.posOnly, Option.none⟩ :: ps) [] kwargs = none := by
  unfold bindParams
  cases kwargs.find? (fun q => q.1 = nm) <;> rfl

/-- Claim C5: invoking `prelu` without the `slope` argument fails at the
signature before any backend call occurs — binding yields no backend call,
so mapping any backend over the outcome yields no backend result either. -/
theorem claim_C5_prelu_requires_slope {Data Err Res : Type}
    (backend : Backend Data Err Res) (self : IvyArray Data)
    (kwargs : List (String × KwVal Data)) :
    prelu_invoke self [] kwargs = none ∧
    (prelu_invoke self [] kwargs).map backend = none := by
  have h : prelu_invoke self [] kwargs = none := by
    unfold prelu_invoke prelu_sig
    rw [bindParams_missing_required]
    rfl
  exact ⟨h, by rw [h]; rfl⟩

/-- Binding helper: `prelu`'s signature rejects any call with two or more
positional arguments — after `slope` consumes the first, the next
positional argument hits the keyword-only `out`. -/
theorem bindParams_prelu_extra {Data : Type} (v w : KwVal Data)
    (vs : List (KwVal Data)) (kwargs : List (String × KwVal Data)) :
    bindParams (prelu_sig : List (Param Data)) (v :: w :: vs) kwargs = none := by
  show bindParams
    (⟨"slope", ParamKind.posOnly, Option.none⟩ ::
      [⟨"out", ParamKind.kwOnly, some KwVal.pynone⟩])
    (v :: w :: vs) kwargs = none
  cases h : kwargs.find? (fun q => q.1 = "slope") with
  | none => simp [bindParams, h]
  | some q => simp [bindParams, h]

/-- Claim C9: in every method other than `logsigmoid` the extra parameters
are keyword-only (and `prelu` takes exactly one positional argument,
`slope`), so supplying any further argument positionally is rejected by
the signature; `logsigmoid` alone declares `complex_mode` as
positional-or-keyword, so `handle.logsigmoid("split")` is accepted and
forwards `complex_mode="split"`. -/
theorem claim_C9_positional_rejection {Data : Type} (self : IvyArray Data)
    (v w : KwVal Data) (vs : List (KwVal Data))
    (kwargs : List (String × KwVal Data)) :
    logit_invoke self (v :: vs) kwargs = none ∧
    thresholded_relu_invoke self (v :: vs) kwargs = none ∧
    relu6_invoke self (v :: vs) kwargs = none ∧
    selu_invoke self (v :: vs) kwargs = none ∧
    silu_invoke self (v :: vs) kwargs = none ∧
    elu_invoke self (v :: vs) kwargs = none ∧
    hardtanh_invoke self (v :: vs) kwargs = none ∧
    tanhshrink_invoke self (v :: vs) kwargs = none ∧
    celu_invoke self (v :: vs) kwargs = none ∧
    prelu_invoke self (v :: w :: vs) kwargs = none ∧
    logsigmoid_invoke self [KwVal.pystr "split"] [] =
      some ⟨"logsigmoid", [KwVal.raw self._data],
        [("complex_mode", KwVal.pystr "split")]⟩ := by
  refine ⟨rfl, rfl, rfl, rfl, rfl, rfl, rfl, rfl, rfl, ?_, rfl⟩
  unfold prelu_invoke
  rw [bindParams_prelu_extra]
  rfl

/-- Claim C6: for every method, a backend error propagates unchanged to
the caller — if the backend function raises (returns `Except.error e`),
the method's outcome is that identical error, with no catching, wrapping
or transformation. -/
theorem claim_C6_error_propagation {Data Err Res : Type}
    (backend : Backend Data Err Res) (self : IvyArray Data)
    (eps complex_mode out threshold slope alpha max_val min_val : KwVal Data)
    (e : Err) :
    (backend (logit self eps complex_mode out) = Except.error e →
      (logit_exec backend self eps complex_mode out).ret = Except.error e) ∧
    (backend (thresholded_relu self threshold out) = Except.error e →
      (thresholded_relu_exec backend self threshold out).ret =
        Except.error e) ∧
    (backend (prelu self slope out) = Except.error e →
      (prelu_exec backend self slope out).ret = Except.error e) ∧
    (backend (relu6 self complex_mode out) = Except.error e →
      (relu6_exec backend self complex_mode out).ret = Except.error e) ∧
    (backend (logsigmoid self complex_mode) = Except.error e →
      (logsigmoid_exec backend self complex_mode).ret = Except.error e) ∧
    (backend (selu self out) = Except.error e →
      (selu_exec backend self out).ret = Except.error e) ∧
    (backend (silu self out) = Except.error e →
      (silu_exec backend self out).ret = Except.error e) ∧
    (backend (elu self alpha out) = Except.error e →
      (elu_exec backend self alpha out).ret = Except.error e) ∧
    (backend (hardtanh self max_val min_val out) = Except.error e →
      (hardtanh_exec backend self max_val min_val out).ret =
        Except.error e) ∧
    (backend (tanhshrink self out) = Except.error e →
      (tanhshrink_exec backend self out).ret = Except.error e) ∧
    (backend (celu self alpha complex_mode out) = Except.error e →
      (celu_exec backend self alpha complex_mode out).ret = Except.error e) :=
  ⟨fun h => h, fun h => h, fun h => h, fun h => h, fun h => h, fun h => h,
   fun h => h, fun h => h, fun h => h, fun h => h, fun h => h⟩

/-- Witness for C6 at a concrete input: `Data = Nat`, a backend that
raises `"boom"` on every call, receiver wrapping `0`, all argument values
`None`: every method's outcome is that same error. -/
theorem claim_C6_error_propagation_witness :
    ((logit_exec (fun _ => Except.error "boom" : Backend Nat String Nat)
        ⟨0⟩ KwVal.pynone KwVal.pynone KwVal.pynone).ret =
      Except.error "boom") ∧
    ((thresholded_relu_exec
        (fun _ => Except.error "boom" : Backend Nat String Nat)
        ⟨0⟩ KwVal.pynone KwVal.pynone).ret = Except.error "boom") ∧
    ((prelu_exec (fun _ => Except.error "boom" : Backend Nat String Nat)
        ⟨0⟩ KwVal.pynone KwVal.pynone).ret = Except.error "boom") ∧
    ((relu6_exec (fun _ => Except.error "boom" : Backend Nat String Nat)
        ⟨0⟩ KwVal.pynone KwVal.pynone).ret = Except.error "boom") ∧
    ((logsigmoid_exec (fun _ => Except.error "boom" : Backend Nat String Nat)
        ⟨0⟩ KwVal.pynone).ret = Except.error "boom") ∧
    ((selu_exec (fun _ => Except.error "boom" : Backend Nat String Nat)
        ⟨0⟩ KwVal.pynone).ret = Except.error "boom") ∧
    ((silu_exec (fun _ => Except.error "boom" : Backend Nat String Nat)
        ⟨0⟩ KwVal.pynone).ret = Except.error "boom") ∧
    ((elu_exec (fun _ => Except.error "boom" : Backend Nat String Nat)
        ⟨0⟩ KwVal.pynone KwVal.pynone).ret = Except.error "boom") ∧
    ((hardtanh_exec (fun _ => Except.error "boom" : Backend Nat String Nat)
        ⟨0⟩ KwVal.pynone KwVal.pynone KwVal.pynone).ret =
      Except.error "boom") ∧
    ((tanhshrink_exec (fun _ => Except.error "boom" : Backend Nat String Nat)
        ⟨0⟩ KwVal.pynone).ret = Except.error "boom") ∧
    ((celu_exec (fun _ => Except.error "boom" : Backend Nat String Nat)
        ⟨0⟩ KwVal.pynone KwVal.pynone KwVal.pynone).ret =
      Except.error "boom") := by
  obtain ⟨h1, h2, h3, h4, h5, h6, h7, h8, h9, h10, h11⟩ :=
    claim_C6_error_propagation
      (fun _ => Except.error "boom" : Backend Nat String Nat)
      (⟨0⟩ : IvyArray Nat) KwVal.pynone KwVal.pynone KwVal.pynone
      KwVal.pynone KwVal.pynone KwVal.pynone KwVal.pynone KwVal.pynone
      "boom"
  exact ⟨h1 rfl, h2 rfl, h3 rfl, h4 rfl, h5 rfl, h6 rfl, h7 rfl, h8 rfl,
    h9 rfl, h10 rfl, h11 rfl⟩

end IvyActivations
